import Mathlib

/-!
Verification of the QKD fault-injection telemetry pipeline.

Shallow embedding of three source modules:
* `QKDSim`    — tokyo_qkd_simulation.py (network build, fault injection,
  metrics extraction, telemetry sampler and its labelling function);
* `OneLink`   — run_dataset_one_link.py (key-consumption traffic model and
  the attenuation-jump fault);
* `GenDataset` — generate_dataset.py (CSV consolidation, exact-stem
  labelling, feature engineering).

Machine floats are modelled by `ℚ` plus an explicit `FVal` wrapper where the
pipeline can produce NaN/±inf (pandas `pct_change`/`var` before `fillna`).
-/

namespace QKDSim

/-- ALL_FAULT_TYPES from tokyo_qkd_simulation.py. -/
def ALL_FAULT_TYPES : List String :=
  ["normal", "qber", "degrade", "node_fail", "blinding", "trojan"]

/-- FAULT_LABELS dict (insertion order preserved, as in Python). -/
def FAULT_LABELS : List (String × Nat) :=
  [("normal", 0), ("qber", 1), ("degrade", 2),
   ("node_fail", 3), ("blinding", 4), ("trojan", 5)]

/-- `FAULT_LABELS.get(label, 0)` used by the metrics collector. -/
def faultIdOf (label : String) : Nat :=
  ((FAULT_LABELS.find? (fun p => p.1 = label)).map Prod.snd).getD 0

/-- Baseline detector efficiency (DETECTOR_EFFICIENCY = 0.80). -/
def DETECTOR_EFFICIENCY : ℚ := 0.80

/-- Baseline dark count rate (DARK_COUNT_RATE = 100 counts/s). -/
def DARK_COUNT_RATE : ℚ := 100

/-- Fibre attenuation baseline (ATTENUATION = 0.0002 dB/m). -/
def ATTENUATION : ℚ := 0.0002

/-- Node names of the Tokyo topology. -/
def NODE_NAMES : List String :=
  ["Koganei_A", "Koganei_B", "Otemachi", "Hakusan", "Hongo"]

/-- LINKS: declared links (n1, n2, distance in metres). -/
def LINKS : List (String × String × Nat) :=
  [("Koganei_A", "Koganei_B", 7000), ("Koganei_B", "Otemachi", 13000),
   ("Otemachi", "Hakusan", 6000), ("Hakusan", "Hongo", 4200)]

/-- One physical detector inside the QSDetectorPolarization array. -/
structure Detector where
  efficiency : ℚ
  dark_count_rate : ℚ
deriving DecidableEq, Repr

/-- The slice of BB84 protocol state read and mutated by the harness:
`error_rates`, `throughputs` histories and the in-progress `key_bits`. -/
structure BB84State where
  error_rates : List ℚ
  throughputs : List ℚ
  key_bits : List Bool
deriving DecidableEq, Repr

/-- Attribute slice of a protocol object touched by the trojan fault:
`phase_error_rate` is `none` when the attribute is absent (hasattr check). -/
structure ProtocolAttrs where
  phase_error_rate : Option ℚ
deriving DecidableEq, Repr

/-- The slice of a QKDNode read/written by fault injection and
`extract_metrics`: the detector array (when the `.qsdetector` component
exists), the scenario-injected cached overrides (`_dark_count_rate`,
`_detector_efficiency`, `_back_reflection_power` — `none` when the
attribute has never been set), the liveness flag and the protocol list. -/
structure SimNode where
  name : String
  qsdetector : Option (List Detector)
  fault_dark_count_rate : Option ℚ
  fault_detector_efficiency : Option ℚ
  fault_back_reflection_power : Option ℚ
  is_offline : Bool
  protocols : List ProtocolAttrs
deriving DecidableEq, Repr

/-- Metric record returned by `extract_metrics`. -/
structure Metrics where
  qber : ℚ
  key_rate_sifted : ℚ
  key_rate_final : ℚ
  detection_count : Int
  error_count : Int
  dark_count_rate : ℚ
  detector_efficiency : ℚ
  back_reflection_power : ℚ
  phase_error_rate : ℚ
deriving DecidableEq, Repr

/-- Python `round()` (banker's rounding, half to even) on a rational. -/
def pyRound (q : ℚ) : Int :=
  let f := ⌊q⌋
  let r := q - f
  if r < 1/2 then f
  else if 1/2 < r then f + 1
  else if 2 ∣ f then f else f + 1

/-- KEY_LENGTH local to `extract_metrics` / `run_simulation`. -/
def KEY_LENGTH : Nat := 256

/-- extract_metrics from tokyo_qkd_simulation.py: reads the BB84 histories
(last entry or 0.0 when empty), the in-progress sifted counts, the raw
first detector of the node's detector array (baseline constants when the
component is missing or the array empty), then lets the scenario-cached
node overrides take precedence, and the cached back-reflection power
(0.0 when never set). -/
def extract_metrics (node : SimNode) (bb84_alice bb84_bob : Option BB84State) :
    Metrics :=
  let error_rates := ((bb84_alice.map BB84State.error_rates).getD [])
  let throughputs := ((bb84_alice.map BB84State.throughputs).getD [])
  let qber : ℚ := (error_rates.getLast?).getD 0
  let key_rate_final : ℚ := (throughputs.getLast?).getD 0
  let sifted_count : Nat := (bb84_alice.map (fun b => b.key_bits.length)).getD 0
  let sifted_count_b : Nat := (bb84_bob.map (fun b => b.key_bits.length)).getD 0
  let key_rate_sifted : ℚ := (max sifted_count sifted_count_b : Nat)
  let detection_count : Int :=
    if 0 < key_rate_sifted then (max sifted_count sifted_count_b : Nat)
    else (KEY_LENGTH : Int)
  let error_count : Int := pyRound (qber * detection_count)
  let rawPair : ℚ × ℚ :=
    match node.qsdetector with
    | some (d :: _) => (d.dark_count_rate, d.efficiency)
    | some [] => (DARK_COUNT_RATE, DETECTOR_EFFICIENCY)
    | none => (DARK_COUNT_RATE, DETECTOR_EFFICIENCY)
  { qber := max 0 (min 1 qber)
    key_rate_sifted := key_rate_sifted
    key_rate_final := key_rate_final
    detection_count := detection_count
    error_count := error_count
    dark_count_rate := node.fault_dark_count_rate.getD rawPair.1
    detector_efficiency := node.fault_detector_efficiency.getD rawPair.2
    back_reflection_power := node.fault_back_reflection_power.getD 0
    phase_error_rate := 0 }

/-- The `_attack` closure of `inject_fault` for fault "qber": acting on
(target.protocol_stack[0], its `.another` peer); when the stack slot is
not None it appends a 0.25 error-rate observation to it, and to the peer
when that is not None. -/
def inject_fault_qber (p : Option BB84State × Option BB84State) :
    Option BB84State × Option BB84State :=
  match p.1 with
  | none => p
  | some a =>
    (some { a with error_rates := a.error_rates ++ [0.25] },
     p.2.map (fun b => { b with error_rates := b.error_rates ++ [0.25] }))

/-- The per-detector saturation performed in `_blind`'s loop body:
`det.efficiency = 1.0; det.dark_count_rate = 5_000_000`. -/
def blindDetector (d : Detector) : Detector :=
  { d with efficiency := 1, dark_count_rate := 5000000 }

/-- The `_blind` closure of `inject_fault` for fault "blinding": when the
`.qsdetector` component exists, saturate every detector in its array;
unconditionally cache the override values on the node
(`_dark_count_rate`, `_detector_efficiency`). -/
def inject_fault_blind (node : SimNode) : SimNode :=
  { node with
    qsdetector := node.qsdetector.map (fun dets => dets.map blindDetector)
    fault_dark_count_rate := some 5000000
    fault_detector_efficiency := some 1 }

/-- The per-protocol mutation performed in `_trojan`'s loop body:
`p.phase_error_rate = 0.02` guarded by `hasattr`. -/
def trojanPhase (p : ProtocolAttrs) : ProtocolAttrs :=
  if p.phase_error_rate.isSome then { p with phase_error_rate := some 0.02 }
  else p

/-- The `_trojan` closure of `inject_fault` for fault "trojan": set the
cached back-reflection power to 1e-3 and nudge `phase_error_rate` to 0.02
on every protocol that has the attribute. -/
def inject_fault_trojan (node : SimNode) : SimNode :=
  { node with
    fault_back_reflection_power := some (1/1000)
    protocols := node.protocols.map trojanPhase }

/-- DURATION_PS in run_simulation (1 s simulated). -/
def DURATION_PS : Nat := 1000000000000

/-- FAULT_START_PS in run_simulation (fault fires at t = 0.5 s). -/
def FAULT_START_PS : Nat := 500000000000

/-- SAMPLE_INTERVAL in run_simulation (10 ms). -/
def SAMPLE_INTERVAL : Nat := 10000000000

/-- label_fn from run_simulation:
`lambda t_ps: fault_type if t_ps >= FAULT_START_PS else "normal"`. -/
def label_fn (fault_type : String) (t_ps : Nat) : String :=
  if FAULT_START_PS ≤ t_ps then fault_type else "normal"

/-- Sample times visited by MetricsSampler's self-rescheduling chain:
`init` schedules the first sample at `SAMPLE_INTERVAL`, and each `sample t`
re-schedules `t + SAMPLE_INTERVAL` while `t ≤ DURATION_PS`
(`_schedule_next`). -/
def sampleChain (t : Nat) : List Nat :=
  if t ≤ DURATION_PS then t :: sampleChain (t + SAMPLE_INTERVAL) else []
termination_by DURATION_PS + 1 - t
decreasing_by simp only [DURATION_PS, SAMPLE_INTERVAL] at *; omega

/-- One row appended by `MetricsSampler.sample` via `collector.record`
(the fields relevant to labelling; `fault_id = FAULT_LABELS.get(label, 0)`). -/
structure SampleRec where
  timestamp_ps : Nat
  link : String
  label : String
  fault_id : Nat
deriving DecidableEq, Repr

/-- All rows recorded by the sampler over a run: one row per link per
sample time, labelled by `label_fn` applied to the sample's simulated
time. -/
def samplerRecords (fault_type : String) (links : List String) :
    List SampleRec :=
  (sampleChain SAMPLE_INTERVAL).flatMap (fun t =>
    links.map (fun l =>
      { timestamp_ps := t, link := l, label := label_fn fault_type t,
        fault_id := faultIdOf (label_fn fault_type t) }))

/-- Default output CSV name in run_simulation when `--output` is absent:
`f"dataset_tokyo_qkd_{fault_type}.csv"`. -/
def default_output_csv (fault_type : String) : String :=
  "dataset_tokyo_qkd_" ++ fault_type ++ ".csv"

/-- String-keyed channel registries of a node as populated by the explicit
`n.cchannels[peer] = cc` / `n.qchannels[peer] = qc` assignments in
build_network (the engine's own `set_ends` registers object-keyed entries
only, per the source's comment). -/
structure NetNode where
  name : String
  cchannels : List (String × String)
  qchannels : List (String × String)
deriving DecidableEq, Repr

/-- Register a classical channel `ch` on node `owner` under peer key. -/
def addCChannel (nodes : List NetNode) (owner peer ch : String) :
    List NetNode :=
  nodes.map (fun nd =>
    if nd.name = owner then { nd with cchannels := nd.cchannels ++ [(peer, ch)] }
    else nd)

/-- Register a quantum channel `ch` on node `owner` under peer key. -/
def addQChannel (nodes : List NetNode) (owner peer ch : String) :
    List NetNode :=
  nodes.map (fun nd =>
    if nd.name = owner then { nd with qchannels := nd.qchannels ++ [(peer, ch)] }
    else nd)

/-- One entry of the `link_pairs` list returned by build_network. -/
structure LinkPair where
  n1 : String
  n2 : String
  link_name : String
  qc : String
  attenuation : ℚ
  distance : Nat
deriving DecidableEq, Repr

/-- The channel registrations performed by build_network: per declared
link, `n1.cchannels[n2] = cc_fwd`, `n2.cchannels[n1] = cc_bwd`,
`n1.qchannels[n2] = qc`; plus the extra KMS classical pair
Koganei_A ↔ Otemachi. These registry assignments do not depend on the
fault type (only link attenuation does). -/
def buildNodes : List NetNode :=
  let init := NODE_NAMES.map (fun n => ⟨n, [], []⟩)
  let reg := LINKS.foldl (fun acc l =>
    let n1 := l.1
    let n2 := l.2.1
    let link_name := n1 ++ "_" ++ n2
    let acc := addCChannel acc n1 n2 ("cc_" ++ link_name ++ "_fwd")
    let acc := addCChannel acc n2 n1 ("cc_" ++ link_name ++ "_bwd")
    addQChannel acc n1 n2 ("qc_" ++ link_name)) init
  let reg := addCChannel reg "Koganei_A" "Otemachi" "cc_KogA_Ote_fwd"
  addCChannel reg "Otemachi" "Koganei_A" "cc_KogA_Ote_bwd"

/-- The `link_pairs` list built by build_network: one tuple per declared
link, with the "degrade" fault baking a 3× attenuation into links whose
sender is Koganei_A. -/
def buildLinkPairs (fault_type : String) : List LinkPair :=
  LINKS.map (fun l =>
    let n1 := l.1
    let n2 := l.2.1
    let dist := l.2.2
    let link_name := n1 ++ "_" ++ n2
    let attn := if fault_type = "degrade" ∧ n1 = "Koganei_A"
      then ATTENUATION * 3 else ATTENUATION
    { n1 := n1, n2 := n2, link_name := link_name, qc := "qc_" ++ link_name,
      attenuation := attn, distance := dist })

/-- build_network from tokyo_qkd_simulation.py: returns the node map (as
its string-keyed channel registries) and the link_pairs list. -/
def build_network (fault_type : String) : List NetNode × List LinkPair :=
  (buildNodes, buildLinkPairs fault_type)

/-- Node lookup by name in the built network. -/
def findNode (nodes : List NetNode) (n : String) : Option NetNode :=
  nodes.find? (fun nd => nd.name = n)

/-- Classical-channel lookup `nodes[owner].cchannels[peer]`. -/
def lookupC (nodes : List NetNode) (owner peer : String) : Option String :=
  (findNode nodes owner).bind (fun nd =>
    ((nd.cchannels.find? (fun p => p.1 = peer)).map Prod.snd))

/-- Quantum-channel lookup `nodes[owner].qchannels[peer]`. -/
def lookupQ (nodes : List NetNode) (owner peer : String) : Option String :=
  (findNode nodes owner).bind (fun nd =>
    ((nd.qchannels.find? (fun p => p.1 = peer)).map Prod.snd))

end QKDSim

namespace OneLink

/-- CONSUME_KEYS from run_dataset_one_link.py. -/
def CONSUME_KEYS : Nat := 2

/-- The state touched by `Traffic.consume` when a cascade protocol is
attached: the completed-key buffer (`cascade.valid_keys`, keys abstracted
to ids) and the scenario starvation counter. -/
structure ConsumeState where
  valid_keys : List Nat
  starvation : Nat
deriving DecidableEq, Repr

/-- Traffic.consume: if the buffer holds fewer than CONSUME_KEYS entries,
count one starvation event and leave the buffer alone; otherwise pop
CONSUME_KEYS entries from the front. A total function: never raises. -/
def consume (s : ConsumeState) : ConsumeState :=
  if s.valid_keys.length < CONSUME_KEYS then
    { s with starvation := s.starvation + 1 }
  else
    { s with valid_keys := s.valid_keys.drop CONSUME_KEYS }

/-- The state touched by `fault_attenuation_jump`: the scenario label and
the A→B quantum channel's attenuation. -/
structure OneLinkSim where
  label : String
  attenuation : ℚ
deriving DecidableEq, Repr

/-- fault_attenuation_jump: set the label and multiply the channel
attenuation by 3.0. -/
def fault_attenuation_jump (s : OneLinkSim) : OneLinkSim :=
  { label := "attenuation_jump", attenuation := s.attenuation * 3 }

end OneLink

namespace GenDataset

/-- FAULT_LABELS from generate_dataset.py (dict in insertion order). -/
def FAULT_LABELS : List (String × Nat) :=
  [("normal", 0), ("qber", 1), ("degrade", 2),
   ("node_fail", 3), ("blinding", 4), ("trojan", 5)]

/-- EXPECTED_FILES: exactly one file name per fault type. -/
def EXPECTED_FILES : List String :=
  FAULT_LABELS.map (fun p => "dataset_" ++ p.1 ++ ".csv")

/-- `Path(csv_path).stem` for the names handled here: strips a trailing
".csv" extension when present. -/
def stemOf (s : String) : String :=
  if s.data.drop (s.data.length - 4) = ('.' :: 'c' :: 's' :: 'v' :: []) then
    ⟨s.data.take (s.data.length - 4)⟩
  else s

/-- The label search of load_and_label: first FAULT_LABELS entry whose
exact stem `dataset_{fault_name}` equals the file stem; fallback
("normal", 0). -/
def labelForStem (stem : String) : String × Nat :=
  match FAULT_LABELS.find? (fun p => stem = "dataset_" ++ p.1) with
  | some p => p
  | none => ("normal", 0)

/-- One raw telemetry CSV row (the columns consumed by
engineer_features). -/
structure RawRow where
  timestamp_ps : Int
  link : String
  qber : ℚ
  key_rate_sifted : ℚ
  dark_count_rate : ℚ
  back_reflection_power : ℚ
deriving DecidableEq, Repr

/-- A raw row with the fault_id / fault_name columns added by
load_and_label. -/
structure LRow where
  row : RawRow
  fault_id : Nat
  fault_name : String
deriving DecidableEq, Repr

/-- load_and_label: read one CSV (modelled as name × rows) and stamp every
row with the label determined by the file's stem. -/
def load_and_label (file : String × List RawRow) : List LRow :=
  let p := labelForStem (stemOf file.1)
  file.2.map (fun r => { row := r, fault_id := p.2, fault_name := p.1 })

/-- Lexicographic byte order on strings (Python string `<=` on ASCII
names), via the code points of the character lists. -/
def strLeAux : List Char → List Char → Bool
  | [], _ => true
  | _ :: _, [] => false
  | a :: as, b :: bs =>
    if a.toNat < b.toNat then true
    else if b.toNat < a.toNat then false
    else strLeAux as bs

/-- String `<=` on the underlying character data. -/
def strLe (a b : String) : Bool := strLeAux a.data b.data

/-- The sort key order of `df.sort_values(["fault_name", "link",
"timestamp_ps"])`. -/
def rowLeB (a b : LRow) : Bool :=
  if a.fault_name = b.fault_name then
    if a.row.link = b.row.link then a.row.timestamp_ps ≤ b.row.timestamp_ps
    else strLe a.row.link b.row.link
  else strLe a.fault_name b.fault_name

/-- `rowLeB` as a decidable relation for sorting. -/
def rowRel (a b : LRow) : Prop := rowLeB a b = true

instance : DecidableRel rowRel := fun a b =>
  inferInstanceAs (Decidable (rowLeB a b = true))

/-- The `sort_values(["fault_name", "link", "timestamp_ps"])` step. -/
def sortRows (rows : List LRow) : List LRow :=
  List.insertionSort rowRel rows

/-- A float value as produced by the pandas pipeline: a finite rational,
±infinity, or NaN. -/
inductive FVal where
  | fin (q : ℚ)
  | posInf
  | negInf
  | nan
deriving DecidableEq, Repr

/-- `.fillna(0)` on one value. -/
def fillna0 : FVal → FVal
  | .nan => .fin 0
  | v => v

/-- `.clip(-1, 1)` on one value (infinities clamp to the bounds, NaN is
left alone — but the pipeline always applies `fillna` first). -/
def clip1 : FVal → FVal
  | .fin q => .fin (max (-1) (min 1 q))
  | .posInf => .fin 1
  | .negInf => .fin (-1)
  | .nan => .nan

/-- One step of pandas `pct_change` in float semantics:
`(cur - prev) / prev`, with 0/0 = NaN and c/0 = ±inf for c ≠ 0. -/
def pct_change (prev cur : ℚ) : FVal :=
  if prev = 0 then
    (if cur = 0 then .nan else if 0 < cur then .posInf else .negInf)
  else .fin ((cur - prev) / prev)

/-- Arithmetic mean of a window (windows here are always nonempty). -/
def winMean (l : List ℚ) : ℚ := l.sum / l.length

/-- pandas sample variance (ddof = 1): NaN on a window of length ≤ 1. -/
def sampleVar (l : List ℚ) : FVal :=
  if l.length ≤ 1 then .nan
  else .fin (((l.map (fun x => (x - winMean l) ^ 2)).sum) / ((l.length : ℚ) - 1))

/-- A consolidated row with the derived feature columns of
engineer_features. -/
structure FeatRow where
  base : LRow
  qber_delta : ℚ
  qber_ma5 : ℚ
  qber_var5 : FVal
  key_rate_drop : FVal
  dark_count_delta : ℚ
  back_reflection_alert : Nat
  qber_alert : Nat
deriving DecidableEq, Repr

/-- The (fault_name, link) group key of `df.groupby(["fault_name",
"link"])`. -/
def groupKeyL (r : LRow) : String × String := (r.fault_name, r.row.link)

/-- Feature columns for one row, given `hist` = the rows preceding it in
its (fault_name, link) group, most recent first: grouped `diff().fillna(0)`
for QBER and dark counts, trailing window-5 rolling mean and
`var().fillna(0)` of QBER, `pct_change().fillna(0).clip(-1, 1)` of the
sifted key rate, and the two binary threshold flags. -/
def mkFeat (hist : List LRow) (r : LRow) : FeatRow :=
  let window := ((r :: hist).take 5).map (fun x => x.row.qber)
  { base := r
    qber_delta :=
      match hist with
      | [] => 0
      | p :: _ => r.row.qber - p.row.qber
    qber_ma5 := winMean window
    qber_var5 := fillna0 (sampleVar window)
    key_rate_drop :=
      match hist with
      | [] => clip1 (fillna0 .nan)
      | p :: _ =>
        clip1 (fillna0 (pct_change p.row.key_rate_sifted r.row.key_rate_sifted))
    dark_count_delta :=
      match hist with
      | [] => 0
      | p :: _ => r.row.dark_count_rate - p.row.dark_count_rate
    back_reflection_alert := if 1/1000000 < r.row.back_reflection_power then 1 else 0
    qber_alert := if 1/20 < r.row.qber then 1 else 0 }

/-- Walk the key-sorted row list computing the grouped features; `hist`
carries the already-seen rows of the current group (most recent first) and
is reset whenever the group key changes — sorting made groups
contiguous, so this reproduces the pandas groupby transforms. -/
def featScan : List LRow → List LRow → List FeatRow
  | _, [] => []
  | hist, r :: rest =>
    let hist2 :=
      match hist with
      | [] => ([] : List LRow)
      | p :: _ => if groupKeyL p = groupKeyL r then hist else []
    mkFeat hist2 r :: featScan (r :: hist2) rest

/-- engineer_features: sort by (fault_name, link, timestamp_ps), then add
the derived per-group feature columns; never adds or drops rows. -/
def engineer_features (rows : List LRow) : List FeatRow :=
  featScan [] (sortRows rows)

/-- The `valid_csvs` filter of main: keep only files whose name is in
EXPECTED_FILES. -/
def validFiles (files : List (String × List RawRow)) :
    List (String × List RawRow) :=
  files.filter (fun f => EXPECTED_FILES.contains f.1)

/-- The `skipped` report of main: names present but not expected. -/
def skippedFiles (files : List (String × List RawRow)) : List String :=
  (files.filter (fun f => !(EXPECTED_FILES.contains f.1))).map Prod.fst

/-- File ordering of `sorted(valid_csvs)` (names are ASCII). -/
def fileRel (a b : String × List RawRow) : Prop := strLe a.1 b.1 = true

instance : DecidableRel fileRel := fun a b =>
  inferInstanceAs (Decidable (strLe a.1 b.1 = true))

/-- main of generate_dataset.py over the glob result (modelled as the list
of discovered `dataset_*.csv` files with their parsed rows): filter to the
expected names; when none remains, report and return without writing
(result `none`); otherwise label each file, concatenate in sorted name
order, engineer features, and write the result (`some table`). -/
def main (files : List (String × List RawRow)) : Option (List FeatRow) :=
  let valid := validFiles files
  if valid.isEmpty then none
  else
    some (engineer_features
      (((List.insertionSort fileRel valid).map load_and_label).flatten))

end GenDataset

/-- A concrete freshly-paired protocol state (both stack slot and peer
present, empty histories), used to exercise the qber perturbation twice. -/
def qberPairState : Option QKDSim.BB84State × Option QKDSim.BB84State :=
  (some ⟨[], [], []⟩, some ⟨[], [], []⟩)

/-!
Theorems for the frozen claims.
-/

/-- C7: `Traffic.consume` is total and never errors on an insufficient
buffer: with at least CONSUME_KEYS (= 2) buffered keys it removes exactly
CONSUME_KEYS entries from the front of the buffer and leaves the
starvation counter alone; otherwise it increments the starvation counter
by exactly 1 and leaves the buffer unchanged. -/
theorem c7_consume_total (s : OneLink.ConsumeState) :
    (OneLink.CONSUME_KEYS ≤ s.valid_keys.length →
      (OneLink.consume s).valid_keys = s.valid_keys.drop OneLink.CONSUME_KEYS ∧
      (OneLink.consume s).valid_keys.length
        = s.valid_keys.length - OneLink.CONSUME_KEYS ∧
      (OneLink.consume s).starvation = s.starvation) ∧
    (s.valid_keys.length < OneLink.CONSUME_KEYS →
      (OneLink.consume s).starvation = s.starvation + 1 ∧
      (OneLink.consume s).valid_keys = s.valid_keys) := by
  constructor
  · intro h
    have hlt : ¬ s.valid_keys.length < OneLink.CONSUME_KEYS := by omega
    simp [OneLink.consume, hlt]
  · intro h
    simp [OneLink.consume, h]

/-- C7 witness: a 3-key buffer loses its front two keys; a 1-key buffer is
left alone and starvation is counted once. -/
theorem c7_consume_total_witness :
    (OneLink.consume ⟨[10, 11, 12], 5⟩).valid_keys = [12] ∧
    (OneLink.consume ⟨[10], 5⟩).starvation = 6 ∧
    (OneLink.consume ⟨[10], 5⟩).valid_keys = [10] := by
  have h1 := (c7_consume_total ⟨[10, 11, 12], 5⟩).1
    (by simp [OneLink.CONSUME_KEYS])
  have h2 := (c7_consume_total ⟨[10], 5⟩).2
    (by simp [OneLink.CONSUME_KEYS])
  exact ⟨h1.1, h2.1, h2.2⟩

/-- C8 counterexample: the qber perturbation appends an error-rate
observation on each application, so applying it twice to a freshly paired
protocol state does not equal applying it once — the perturbations are
not all idempotent. -/
theorem c8_counterexample :
    QKDSim.inject_fault_qber (QKDSim.inject_fault_qber qberPairState)
      ≠ QKDSim.inject_fault_qber qberPairState := by
  intro h
  have h2 := congrArg
    (fun p => ((p.1.map QKDSim.BB84State.error_rates).getD []).length) h
  simp [QKDSim.inject_fault_qber, qberPairState] at h2

/-- C8 amended: the blinding and trojan perturbations are idempotent
(they set their targets to fixed values), while the qber perturbation
(which appends an error-rate observation each time) and the
attenuation-jump perturbation (which multiplies the channel attenuation
by 3 each time) are not. -/
theorem c8_idempotence_amended :
    (∀ n : QKDSim.SimNode,
      QKDSim.inject_fault_blind (QKDSim.inject_fault_blind n)
        = QKDSim.inject_fault_blind n) ∧
    (∀ n : QKDSim.SimNode,
      QKDSim.inject_fault_trojan (QKDSim.inject_fault_trojan n)
        = QKDSim.inject_fault_trojan n) ∧
    (∃ p, QKDSim.inject_fault_qber (QKDSim.inject_fault_qber p)
        ≠ QKDSim.inject_fault_qber p) ∧
    (∃ s, OneLink.fault_attenuation_jump (OneLink.fault_attenuation_jump s)
        ≠ OneLink.fault_attenuation_jump s) := by
  have hdet : ∀ dets : List QKDSim.Detector,
      (dets.map QKDSim.blindDetector).map QKDSim.blindDetector
        = dets.map QKDSim.blindDetector := by
    intro dets
    rw [List.map_map]
    exact List.map_congr_left (fun d _ => rfl)
  have hph : ∀ p : QKDSim.ProtocolAttrs,
      QKDSim.trojanPhase (QKDSim.trojanPhase p) = QKDSim.trojanPhase p := by
    intro p
    cases hp : p.phase_error_rate <;> simp [QKDSim.trojanPhase, hp]
  have hprot : ∀ pr : List QKDSim.ProtocolAttrs,
      (pr.map QKDSim.trojanPhase).map QKDSim.trojanPhase
        = pr.map QKDSim.trojanPhase := by
    intro pr
    rw [List.map_map]
    exact List.map_congr_left (fun p _ => hph p)
  refine ⟨?_, ?_, ?_, ?_⟩
  · intro n
    cases hq : n.qsdetector with
    | none => simp [QKDSim.inject_fault_blind, hq]
    | some dets => simp [QKDSim.inject_fault_blind, hq, hdet]
  · intro n
    simp [QKDSim.inject_fault_trojan, hprot]
  · refine ⟨(some ⟨[], [], []⟩, none), ?_⟩
    intro h
    have h2 := congrArg
      (fun p => ((p.1.map QKDSim.BB84State.error_rates).getD []).length) h
    simp [QKDSim.inject_fault_qber] at h2
  · refine ⟨⟨"normal", 1⟩, ?_⟩
    intro h
    have h2 := congrArg OneLink.OneLinkSim.attenuation h
    norm_num [OneLink.fault_attenuation_jump] at h2

/-- C9 counterexample: for the declared link (Hakusan, Hongo) the quantum
channel is not reachable by peer-name lookup from the receiving endpoint:
Hongo's string-keyed quantum-channel registry has no entry for Hakusan
(build_network only registers `n1.qchannels[n2_name]`). -/
theorem c9_counterexample :
    QKDSim.lookupQ (QKDSim.build_network "normal").1 "Hongo" "Hakusan"
      = none := by decide

/-- C9 amended: after build_network, every declared link has exactly one
quantum channel and one bidirectional classical-channel pair; both
classical directions are addressable by endpoint-name lookup, and the
link's quantum channel is reachable by peer-name lookup from the
transmitting endpoint's registry only — the receiving endpoint's
string-keyed quantum registry has no entry for the link. -/
theorem c9_channel_registry_amended (fault_type : String) :
    ∀ l ∈ QKDSim.LINKS,
      QKDSim.lookupC (QKDSim.build_network fault_type).1 l.1 l.2.1
        = some ("cc_" ++ l.1 ++ "_" ++ l.2.1 ++ "_fwd") ∧
      QKDSim.lookupC (QKDSim.build_network fault_type).1 l.2.1 l.1
        = some ("cc_" ++ l.1 ++ "_" ++ l.2.1 ++ "_bwd") ∧
      QKDSim.lookupQ (QKDSim.build_network fault_type).1 l.1 l.2.1
        = some ("qc_" ++ l.1 ++ "_" ++ l.2.1) ∧
      QKDSim.lookupQ (QKDSim.build_network fault_type).1 l.2.1 l.1 = none ∧
      ((QKDSim.findNode (QKDSim.build_network fault_type).1 l.1).map
        (fun nd => (nd.cchannels.filter (fun p => p.1 = l.2.1)).length))
        = some 1 ∧
      ((QKDSim.findNode (QKDSim.build_network fault_type).1 l.2.1).map
        (fun nd => (nd.cchannels.filter (fun p => p.1 = l.1)).length))
        = some 1 ∧
      ((QKDSim.findNode (QKDSim.build_network fault_type).1 l.1).map
        (fun nd => (nd.qchannels.filter (fun p => p.1 = l.2.1)).length))
        = some 1 ∧
      ((QKDSim.build_network fault_type).2.filter
        (fun lp => lp.link_name = l.1 ++ "_" ++ l.2.1)).length = 1 := by
  intro l hl
  have h1 : (QKDSim.build_network fault_type).1 = QKDSim.buildNodes := rfl
  have h2 : (QKDSim.build_network fault_type).2
      = QKDSim.buildLinkPairs fault_type := rfl
  rw [h1, h2]
  simp only [QKDSim.LINKS, List.mem_cons, List.not_mem_nil, or_false] at hl
  rcases hl with rfl | rfl | rfl | rfl <;>
    refine ⟨by decide, by decide, by decide, by decide, by decide, by decide,
      by decide, ?_⟩ <;>
    simp [QKDSim.buildLinkPairs, QKDSim.LINKS, List.filter]

/-- C9 amended witness: the first declared link, instantiated. -/
theorem c9_channel_registry_amended_witness :
    QKDSim.lookupQ (QKDSim.build_network "normal").1 "Koganei_A" "Koganei_B"
      = some "qc_Koganei_A_Koganei_B" :=
  (c9_channel_registry_amended "normal" ("Koganei_A", "Koganei_B", 7000)
    (by decide)).2.2.1

/-- C5: after the blinding perturbation, metric extraction for the target
node reports detector efficiency 1.0 and dark-count rate 5,000,000
whatever the protocol state; the perturbation saturates every detector in
the node's array; and whenever the scenario override caches are set, the
extractor reads them in preference to the raw detector state. -/
theorem c5_blinding_metrics :
    (∀ (n : QKDSim.SimNode) (a b : Option QKDSim.BB84State),
      (QKDSim.extract_metrics (QKDSim.inject_fault_blind n) a b).detector_efficiency
        = 1 ∧
      (QKDSim.extract_metrics (QKDSim.inject_fault_blind n) a b).dark_count_rate
        = 5000000) ∧
    (∀ (n : QKDSim.SimNode) (dets : List QKDSim.Detector),
      (QKDSim.inject_fault_blind n).qsdetector = some dets →
      ∀ d ∈ dets, d.efficiency = 1 ∧ d.dark_count_rate = 5000000) ∧
    (∀ (n : QKDSim.SimNode) (a b : Option QKDSim.BB84State) (dv ev : ℚ),
      n.fault_dark_count_rate = some dv →
      n.fault_detector_efficiency = some ev →
      (QKDSim.extract_metrics n a b).dark_count_rate = dv ∧
      (QKDSim.extract_metrics n a b).detector_efficiency = ev) := by
  refine ⟨?_, ?_, ?_⟩
  · intro n a b
    constructor <;> simp [QKDSim.extract_metrics, QKDSim.inject_fault_blind]
  · intro n dets h d hd
    cases hq : n.qsdetector with
    | none => simp [QKDSim.inject_fault_blind, hq] at h
    | some l =>
      have h2 : (QKDSim.inject_fault_blind n).qsdetector
          = some (l.map QKDSim.blindDetector) := by
        simp only [QKDSim.inject_fault_blind, hq, Option.map_some']
      rw [h2] at h
      obtain rfl := (Option.some.injEq _ _).mp h
      obtain ⟨x, _, rfl⟩ := List.mem_map.mp hd
      exact ⟨rfl, rfl⟩
  · intro n a b dv ev hdv hev
    constructor <;> simp [QKDSim.extract_metrics, hdv, hev]

/-- C5 witness: a node whose caches are set to distinctive values has the
cached values reported, and a concretely blinded node reports the
saturated values. -/
theorem c5_blinding_metrics_witness :
    (QKDSim.extract_metrics
      { name := "Otemachi", qsdetector := some [⟨0.8, 100⟩],
        fault_dark_count_rate := some 4321,
        fault_detector_efficiency := some (1/2),
        fault_back_reflection_power := none,
        is_offline := false, protocols := [] } none none).dark_count_rate
      = 4321 ∧
    (QKDSim.extract_metrics (QKDSim.inject_fault_blind
      { name := "Otemachi", qsdetector := some [⟨0.8, 100⟩],
        fault_dark_count_rate := none, fault_detector_efficiency := none,
        fault_back_reflection_power := none,
        is_offline := false, protocols := [] }) none none).detector_efficiency
      = 1 := by
  refine ⟨(c5_blinding_metrics.2.2 _ none none 4321 (1/2) rfl rfl).1, ?_⟩
  exact (c5_blinding_metrics.1 _ none none).1

/-- C1: every row the sampler records carries label `normal` when its
simulated timestamp is strictly before FAULT_START_PS and the active
scenario's name when it is at or after it; the label is computed by
`label_fn` from the sample's simulated time alone, and once past the
trigger the label never regresses. -/
theorem c1_sampler_labels (fault_type : String) (links : List String)
    (rec : QKDSim.SampleRec)
    (hrec : rec ∈ QKDSim.samplerRecords fault_type links) :
    (rec.timestamp_ps < QKDSim.FAULT_START_PS → rec.label = "normal") ∧
    (QKDSim.FAULT_START_PS ≤ rec.timestamp_ps → rec.label = fault_type) ∧
    rec.label = QKDSim.label_fn fault_type rec.timestamp_ps ∧
    (∀ t u : Nat, QKDSim.FAULT_START_PS ≤ t → t ≤ u →
      QKDSim.label_fn fault_type u = QKDSim.label_fn fault_type t) := by
  obtain ⟨t, ht, hmem⟩ := List.mem_flatMap.mp hrec
  obtain ⟨l, hl, rfl⟩ := List.mem_map.mp hmem
  refine ⟨?_, ?_, rfl, ?_⟩
  · intro h
    simp only at h
    rw [QKDSim.label_fn, if_neg (by omega)]
  · intro h
    simp only at h
    rw [QKDSim.label_fn, if_pos h]
  · intro a u ha hu
    rw [QKDSim.label_fn, if_pos (show QKDSim.FAULT_START_PS ≤ u by omega),
      QKDSim.label_fn, if_pos ha]

/-- C1 witness: with scenario `blinding`, the first sample of the chain
(at t = SAMPLE_INTERVAL, before the trigger) is labelled `normal`, and a
record at the trigger time is labelled `blinding`. -/
theorem c1_sampler_labels_witness :
    (⟨10000000000, "Koganei_A_Koganei_B", "normal", 0⟩ : QKDSim.SampleRec).label
      = "normal" ∧
    (⟨500000000000, "Koganei_A_Koganei_B", "blinding", 4⟩ : QKDSim.SampleRec).label
      = "blinding" := by
  have hmem1 : (⟨10000000000, "Koganei_A_Koganei_B", "normal", 0⟩ : QKDSim.SampleRec)
      ∈ QKDSim.samplerRecords "blinding" ["Koganei_A_Koganei_B"] := by
    apply List.mem_flatMap.mpr
    refine ⟨10000000000, ?_, ?_⟩
    · rw [QKDSim.sampleChain,
        if_pos (by norm_num [QKDSim.DURATION_PS, QKDSim.SAMPLE_INTERVAL])]
      exact List.mem_cons_self _ _
    · simp [QKDSim.label_fn, QKDSim.FAULT_START_PS, QKDSim.faultIdOf,
        QKDSim.FAULT_LABELS]
  have hmem2 : (⟨500000000000, "Koganei_A_Koganei_B", "blinding", 4⟩ : QKDSim.SampleRec)
      ∈ QKDSim.samplerRecords "blinding" ["Koganei_A_Koganei_B"] := by
    apply List.mem_flatMap.mpr
    refine ⟨500000000000, ?_, ?_⟩
    · have h50 : ∀ k : Nat, k ≤ 49 →
          (500000000000 : Nat) ∈ QKDSim.sampleChain (500000000000 - 10000000000 * k) := by
        intro k
        induction k with
        | zero =>
          intro _
          rw [QKDSim.sampleChain,
            if_pos (by norm_num [QKDSim.DURATION_PS])]
          exact List.mem_cons_self _ _
        | succ m ih =>
          intro hm
          rw [QKDSim.sampleChain,
            if_pos (by norm_num [QKDSim.DURATION_PS]; omega)]
          refine List.mem_cons_of_mem _ ?_
          have : 500000000000 - 10000000000 * (m + 1) + QKDSim.SAMPLE_INTERVAL
              = 500000000000 - 10000000000 * m := by
            simp only [QKDSim.SAMPLE_INTERVAL]
            omega
          rw [this]
          exact ih (by omega)
      have := h50 49 (le_refl 49)
      simpa using this
    · simp [QKDSim.label_fn, QKDSim.FAULT_START_PS, QKDSim.faultIdOf,
        QKDSim.FAULT_LABELS]
  exact ⟨(c1_sampler_labels "blinding" ["Koganei_A_Koganei_B"] _ hmem1).1
      (by norm_num [QKDSim.FAULT_START_PS]),
    ((c1_sampler_labels "blinding" ["Koganei_A_Koganei_B"] _ hmem2).2.1
      (by norm_num [QKDSim.FAULT_START_PS]))⟩

/-- C2: the consolidator's filter excludes every file whose name is not
exactly one of the six expected names and reports it as skipped;
`dataset_qbert.csv` in particular is not an expected name (no substring
matching), and even the exact-stem labelling of load_and_label would give
it the defensive `normal` label, never `qber`. -/
theorem c2_exact_name_filter :
    (∀ (files : List (String × List GenDataset.RawRow))
      (f : String × List GenDataset.RawRow), f ∈ files →
      GenDataset.EXPECTED_FILES.contains f.1 = false →
      f ∉ GenDataset.validFiles files ∧
      f.1 ∈ GenDataset.skippedFiles files) ∧
    GenDataset.EXPECTED_FILES.contains "dataset_qbert.csv" = false ∧
    (GenDataset.labelForStem (GenDataset.stemOf "dataset_qbert.csv")).1
      = "normal" ∧
    (GenDataset.labelForStem (GenDataset.stemOf "dataset_qbert.csv")).1
      ≠ "qber" := by
  refine ⟨?_, by decide, by decide, by decide⟩
  intro files f hf hnot
  constructor
  · intro hmem
    have := (List.mem_filter.mp hmem).2
    rw [hnot] at this
    exact Bool.false_ne_true this
  · refine List.mem_map.mpr ⟨f, ?_, rfl⟩
    refine List.mem_filter.mpr ⟨hf, ?_⟩
    simpa using hnot

/-- C2 witness: a directory containing only `dataset_qbert.csv` has it
skipped and not kept. -/
theorem c2_exact_name_filter_witness :
    ("dataset_qbert.csv", ([] : List GenDataset.RawRow))
      ∉ GenDataset.validFiles [("dataset_qbert.csv", [])] ∧
    "dataset_qbert.csv"
      ∈ GenDataset.skippedFiles [("dataset_qbert.csv", [])] :=
  c2_exact_name_filter.1 [("dataset_qbert.csv", [])]
    ("dataset_qbert.csv", []) (List.mem_cons_self _ _) (by decide)

/-- C6: when the name filter leaves no valid input file, main returns
`none` — it reports and exits without reaching the output-writing step,
so no consolidated dataset is written. -/
theorem c6_no_valid_input_no_output
    (files : List (String × List GenDataset.RawRow))
    (h : GenDataset.validFiles files = []) :
    GenDataset.main files = none := by
  rw [GenDataset.main]
  simp [h]

/-- C6 witness: a directory holding only an unexpected file produces no
output table. -/
theorem c6_no_valid_input_no_output_witness :
    GenDataset.main [("dataset_qbert.csv", [])] = none :=
  c6_no_valid_input_no_output [("dataset_qbert.csv", [])] (by decide)

/-- When every discovered file fails the expected-name check, the filter
keeps nothing and everything is reported as skipped. -/
theorem allUnexpected_filtered :
    ∀ files : List (String × List GenDataset.RawRow),
      (∀ f ∈ files, GenDataset.EXPECTED_FILES.contains f.1 = false) →
      GenDataset.validFiles files = [] ∧
      GenDataset.skippedFiles files = files.map Prod.fst := by
  intro files
  induction files with
  | nil =>
    intro _
    simp [GenDataset.validFiles, GenDataset.skippedFiles]
  | cons f fs ih =>
    intro hall
    have hf := hall f (List.mem_cons_self _ _)
    have ihr := ih (fun g hg => hall g (List.mem_cons_of_mem _ hg))
    refine ⟨?_, ?_⟩
    · rw [GenDataset.validFiles, List.filter_cons_of_neg (by simpa using hf)]
      exact ihr.1
    · rw [GenDataset.skippedFiles,
        List.filter_cons_of_pos (by simpa using hf)]
      simpa [GenDataset.skippedFiles] using ihr.2

/-- C10: the runner's default output name `dataset_tokyo_qkd_<fault>.csv`
is never one of the consolidator's expected names, so a directory holding
only default-named runner outputs has every file classified as skipped,
no valid file, and main returns without producing a consolidated
dataset. -/
theorem c10_default_names_rejected :
    (∀ ft ∈ QKDSim.ALL_FAULT_TYPES,
      GenDataset.EXPECTED_FILES.contains (QKDSim.default_output_csv ft)
        = false) ∧
    (∀ files : List (String × List GenDataset.RawRow),
      (∀ f ∈ files, ∃ ft ∈ QKDSim.ALL_FAULT_TYPES,
        f.1 = QKDSim.default_output_csv ft) →
      GenDataset.validFiles files = [] ∧
      GenDataset.skippedFiles files = files.map Prod.fst ∧
      GenDataset.main files = none) := by
  have hbase : ∀ ft ∈ QKDSim.ALL_FAULT_TYPES,
      GenDataset.EXPECTED_FILES.contains (QKDSim.default_output_csv ft)
        = false := by decide
  refine ⟨hbase, ?_⟩
  intro files h
  have hall : ∀ f ∈ files, GenDataset.EXPECTED_FILES.contains f.1 = false := by
    intro f hf
    obtain ⟨ft, hft, heq⟩ := h f hf
    rw [heq]
    exact hbase ft hft
  have hmain := allUnexpected_filtered files hall
  refine ⟨hmain.1, hmain.2, ?_⟩
  rw [GenDataset.main]
  simp [hmain.1]

/-- C10 witness: a directory with one default-named runner output. -/
theorem c10_default_names_rejected_witness :
    GenDataset.validFiles [("dataset_tokyo_qkd_blinding.csv", [])] = [] ∧
    GenDataset.skippedFiles [("dataset_tokyo_qkd_blinding.csv", [])]
      = ["dataset_tokyo_qkd_blinding.csv"] ∧
    GenDataset.main [("dataset_tokyo_qkd_blinding.csv", [])] = none := by
  have h := c10_default_names_rejected.2
    [("dataset_tokyo_qkd_blinding.csv", ([] : List GenDataset.RawRow))]
    (by
      intro f hf
      simp only [List.mem_cons, List.not_mem_nil, or_false] at hf
      subst hf
      exact ⟨"blinding", by decide, rfl⟩)
  exact ⟨h.1, h.2.1, h.2.2⟩

/-- The feature scan emits exactly one output row per input row. -/
theorem featScan_length (rows : List GenDataset.LRow) :
    ∀ hist, (GenDataset.featScan hist rows).length = rows.length := by
  induction rows with
  | nil => intro hist; rfl
  | cons r rest ih =>
    intro hist
    simp only [GenDataset.featScan, List.length_cons]
    rw [ih]

/-- The feature scan keeps the underlying rows unchanged, in order. -/
theorem featScan_map_base (rows : List GenDataset.LRow) :
    ∀ hist, (GenDataset.featScan hist rows).map GenDataset.FeatRow.base
      = rows := by
  induction rows with
  | nil => intro hist; rfl
  | cons r rest ih =>
    intro hist
    simp only [GenDataset.featScan, List.map_cons]
    rw [ih]
    rfl

/-- Feature engineering never adds or drops rows. -/
theorem engineer_features_length (rows : List GenDataset.LRow) :
    (GenDataset.engineer_features rows).length = rows.length := by
  rw [GenDataset.engineer_features, featScan_length, GenDataset.sortRows,
    List.length_insertionSort]

/-- Row counts by any predicate on the underlying rows are preserved by
feature engineering (sorting is a permutation, the scan maps rows
one-to-one). -/
theorem engineer_features_countP (rows : List GenDataset.LRow)
    (p : GenDataset.LRow → Bool) :
    (GenDataset.engineer_features rows).countP (fun fr => p fr.base)
      = rows.countP p := by
  have h1 : (GenDataset.engineer_features rows).countP (fun fr => p fr.base)
      = ((GenDataset.engineer_features rows).map GenDataset.FeatRow.base).countP
          p := by
    rw [List.countP_map]
    rfl
  rw [h1, GenDataset.engineer_features, featScan_map_base, GenDataset.sortRows]
  exact (List.perm_insertionSort _ _).countP_eq p

/-- Specialisation of `engineer_features_countP` to label counts. -/
theorem engineer_features_count_label (rows : List GenDataset.LRow)
    (target : String) :
    (GenDataset.engineer_features rows).countP
        (fun fr => fr.base.fault_name = target)
      = rows.countP (fun lr => lr.fault_name = target) :=
  engineer_features_countP rows (fun lr => lr.fault_name = target)

/-- Labelling a file stamps each of its rows, so the per-label row count
of one loaded file is all-or-nothing. -/
theorem load_and_label_countP (file : String × List GenDataset.RawRow)
    (target : String) :
    (GenDataset.load_and_label file).countP
        (fun lr => lr.fault_name = target)
      = if (GenDataset.labelForStem (GenDataset.stemOf file.1)).1 = target
        then file.2.length else 0 := by
  rw [GenDataset.load_and_label]
  simp only [List.countP_map]
  by_cases h : (GenDataset.labelForStem (GenDataset.stemOf file.1)).1 = target
  · simp [h, Function.comp]
  · simp [h, Function.comp]

/-- C3: consolidating exactly the six correctly-named files with row
counts N1..N6 yields a table of N1+...+N6 rows in which each fault label
appears exactly as often as its input file has rows. -/
theorem c3_consolidated_counts (r1 r2 r3 r4 r5 r6 : List GenDataset.RawRow) :
    ∃ out, GenDataset.main
      [("dataset_normal.csv", r1), ("dataset_qber.csv", r2),
       ("dataset_degrade.csv", r3), ("dataset_node_fail.csv", r4),
       ("dataset_blinding.csv", r5), ("dataset_trojan.csv", r6)]
      = some out ∧
    out.length = r1.length + r2.length + r3.length + r4.length
      + r5.length + r6.length ∧
    out.countP (fun fr => fr.base.fault_name = "normal") = r1.length ∧
    out.countP (fun fr => fr.base.fault_name = "qber") = r2.length ∧
    out.countP (fun fr => fr.base.fault_name = "degrade") = r3.length ∧
    out.countP (fun fr => fr.base.fault_name = "node_fail") = r4.length ∧
    out.countP (fun fr => fr.base.fault_name = "blinding") = r5.length ∧
    out.countP (fun fr => fr.base.fault_name = "trojan") = r6.length := by
  have lblN : GenDataset.labelForStem (GenDataset.stemOf "dataset_normal.csv")
      = ("normal", 0) := by decide
  have lblQ : GenDataset.labelForStem (GenDataset.stemOf "dataset_qber.csv")
      = ("qber", 1) := by decide
  have lblD : GenDataset.labelForStem (GenDataset.stemOf "dataset_degrade.csv")
      = ("degrade", 2) := by decide
  have lblF : GenDataset.labelForStem
      (GenDataset.stemOf "dataset_node_fail.csv") = ("node_fail", 3) := by
    decide
  have lblB : GenDataset.labelForStem
      (GenDataset.stemOf "dataset_blinding.csv") = ("blinding", 4) := by decide
  have lblT : GenDataset.labelForStem (GenDataset.stemOf "dataset_trojan.csv")
      = ("trojan", 5) := by decide
  refine ⟨GenDataset.engineer_features
    (((List.insertionSort GenDataset.fileRel
      [("dataset_normal.csv", r1), ("dataset_qber.csv", r2),
       ("dataset_degrade.csv", r3), ("dataset_node_fail.csv", r4),
       ("dataset_blinding.csv", r5),
       ("dataset_trojan.csv", r6)]).map GenDataset.load_and_label).flatten),
    rfl, ?_, ?_, ?_, ?_, ?_, ?_, ?_⟩
  · rw [engineer_features_length]
    simp +decide only [List.insertionSort, List.orderedInsert,
      GenDataset.fileRel]
    norm_num [GenDataset.load_and_label]
    omega
  all_goals
    rw [engineer_features_count_label]
    simp +decide only [List.insertionSort, List.orderedInsert,
      GenDataset.fileRel]
    norm_num [List.countP_flatten, load_and_label_countP,
      lblN, lblQ, lblD, lblF, lblB, lblT]
    simp +decide

/-- The engineered features keep the underlying row in the `base` field. -/
theorem mkFeat_base (hist : List GenDataset.LRow) (r : GenDataset.LRow) :
    (GenDataset.mkFeat hist r).base = r := rfl

/-- The first row of a group receives the zero-default derived features:
the grouped diff and pct_change have nothing to difference against
(`fillna(0)`), and the rolling window holds a single element so its
sample variance is NaN, turned into 0 by `fillna(0)`. -/
theorem mkFeat_first_of_group (r : GenDataset.LRow) :
    (GenDataset.mkFeat [] r).qber_delta = 0 ∧
    (GenDataset.mkFeat [] r).dark_count_delta = 0 ∧
    (GenDataset.mkFeat [] r).key_rate_drop = GenDataset.FVal.fin 0 ∧
    (GenDataset.mkFeat [] r).qber_var5 = GenDataset.FVal.fin 0 := by
  have h1 : min (1 : ℚ) 0 = 0 := min_eq_right (by norm_num)
  have h2 : max (-1 : ℚ) 0 = 0 := max_eq_right (by norm_num)
  refine ⟨rfl, rfl, ?_, ?_⟩
  · simp only [GenDataset.mkFeat, GenDataset.fillna0, GenDataset.clip1,
      h1, h2]
  · simp [GenDataset.mkFeat, GenDataset.sampleVar, GenDataset.fillna0]

/-- Whatever the history, the clipped pct_change column is a finite value
in [-1, 1]. -/
theorem mkFeat_key_rate_drop_bounded (hist : List GenDataset.LRow)
    (r : GenDataset.LRow) :
    ∃ q, (GenDataset.mkFeat hist r).key_rate_drop = GenDataset.FVal.fin q ∧
      -1 ≤ q ∧ q ≤ 1 := by
  have h1 : min (1 : ℚ) 0 = 0 := min_eq_right (by norm_num)
  have h2 : max (-1 : ℚ) 0 = 0 := max_eq_right (by norm_num)
  cases hist with
  | nil =>
    exact ⟨0, (mkFeat_first_of_group r).2.2.1, by norm_num, by norm_num⟩
  | cons p hs =>
    have hproj : (GenDataset.mkFeat (p :: hs) r).key_rate_drop
        = GenDataset.clip1 (GenDataset.fillna0
            (GenDataset.pct_change p.row.key_rate_sifted
              r.row.key_rate_sifted)) := rfl
    rw [hproj]
    cases hpc : GenDataset.pct_change p.row.key_rate_sifted
        r.row.key_rate_sifted with
    | fin q =>
      refine ⟨max (-1) (min 1 q),
        by simp [GenDataset.fillna0, GenDataset.clip1],
        le_max_left _ _, max_le (by norm_num) (min_le_left _ _)⟩
    | posInf =>
      exact ⟨1, by simp [GenDataset.fillna0, GenDataset.clip1],
        by norm_num, le_refl _⟩
    | negInf =>
      exact ⟨-1, by simp [GenDataset.fillna0, GenDataset.clip1],
        le_refl _, by norm_num⟩
    | nan =>
      exact ⟨0, by simp only [GenDataset.fillna0, GenDataset.clip1, h1, h2],
        by norm_num, by norm_num⟩

/-- Every output row of the feature scan is `mkFeat` of some history. -/
theorem featScan_shape (rows : List GenDataset.LRow) :
    ∀ hist fr, fr ∈ GenDataset.featScan hist rows →
      ∃ h r, fr = GenDataset.mkFeat h r := by
  induction rows with
  | nil =>
    intro hist fr h
    simp [GenDataset.featScan] at h
  | cons r rest ih =>
    intro hist fr h
    simp only [GenDataset.featScan, List.mem_cons] at h
    rcases h with rfl | h
    · exact ⟨_, _, rfl⟩
    · exact ih _ fr h

/-- When two adjacent scan outputs carry different group keys, the second
one was computed against an empty history, hence carries the
first-of-group zero defaults. -/
theorem featScan_adjacent (rows : List GenDataset.LRow) :
    ∀ (hist : List GenDataset.LRow) (j : Nat)
      (prev cur : GenDataset.FeatRow),
      (GenDataset.featScan hist rows).get? j = some prev →
      (GenDataset.featScan hist rows).get? (j + 1) = some cur →
      GenDataset.groupKeyL prev.base ≠ GenDataset.groupKeyL cur.base →
      cur.qber_delta = 0 ∧ cur.dark_count_delta = 0 ∧
      cur.key_rate_drop = GenDataset.FVal.fin 0 ∧
      cur.qber_var5 = GenDataset.FVal.fin 0 := by
  induction rows with
  | nil =>
    intro hist j prev cur hp _ _
    simp [GenDataset.featScan] at hp
  | cons r rest ih =>
    intro hist j prev cur hp hc hne
    cases j with
    | zero =>
      cases rest with
      | nil => simp [GenDataset.featScan] at hc
      | cons s rest2 =>
        simp only [GenDataset.featScan, List.get?_cons_zero,
          List.get?_cons_succ, Option.some.injEq] at hp hc
        subst hp
        by_cases hkey : GenDataset.groupKeyL r = GenDataset.groupKeyL s
        · rw [if_pos hkey] at hc
          subst hc
          exact absurd hkey hne
        · rw [if_neg hkey] at hc
          subst hc
          exact mkFeat_first_of_group s
    | succ k =>
      simp only [GenDataset.featScan, List.get?_cons_succ] at hp hc
      exact ih _ k prev cur hp hc hne

/-- The very first scan output is computed against an empty history. -/
theorem featScan_head (rows : List GenDataset.LRow)
    (cur : GenDataset.FeatRow)
    (h : (GenDataset.featScan [] rows).get? 0 = some cur) :
    cur.qber_delta = 0 ∧ cur.dark_count_delta = 0 ∧
    cur.key_rate_drop = GenDataset.FVal.fin 0 ∧
    cur.qber_var5 = GenDataset.FVal.fin 0 := by
  cases rows with
  | nil => simp [GenDataset.featScan] at h
  | cons r rest =>
    simp only [GenDataset.featScan, List.get?_cons_zero,
      Option.some.injEq] at h
    subst h
    exact mkFeat_first_of_group r

/-- C4: in the engineered table, any row that opens its (fault-label,
link) group — the table's very first row, or any row whose predecessor
carries a different group key — has qber_delta, dark_count_delta and
key_rate_drop exactly 0 and a window-5 QBER variance of exactly 0 (a
finite value, never NaN); moreover every row's key_rate_drop is a finite
value within [-1, 1]. -/
theorem c4_group_first_features (rows : List GenDataset.LRow) (i : Nat)
    (cur : GenDataset.FeatRow)
    (hcur : (GenDataset.engineer_features rows).get? i = some cur) :
    ((i = 0 ∨ ∀ prev, (GenDataset.engineer_features rows).get? (i - 1)
          = some prev →
        GenDataset.groupKeyL prev.base ≠ GenDataset.groupKeyL cur.base) →
      cur.qber_delta = 0 ∧ cur.dark_count_delta = 0 ∧
      cur.key_rate_drop = GenDataset.FVal.fin 0 ∧
      cur.qber_var5 = GenDataset.FVal.fin 0) ∧
    (∃ q, cur.key_rate_drop = GenDataset.FVal.fin q ∧ -1 ≤ q ∧ q ≤ 1) := by
  have hcur2 : (GenDataset.featScan []
      (GenDataset.sortRows rows)).get? i = some cur := hcur
  constructor
  · intro hfirst
    cases i with
    | zero => exact featScan_head _ _ hcur2
    | succ k =>
      rcases hfirst with h0 | hne
      · exact absurd h0 (Nat.succ_ne_zero k)
      · obtain ⟨hlt, -⟩ := List.get?_eq_some.mp hcur2
        have hk : k < (GenDataset.featScan []
            (GenDataset.sortRows rows)).length := by omega
        have hprev : (GenDataset.featScan []
              (GenDataset.sortRows rows)).get? k
            = some ((GenDataset.featScan []
              (GenDataset.sortRows rows)).get ⟨k, hk⟩) :=
          List.get?_eq_get hk
        have hne2 := hne _ hprev
        exact featScan_adjacent _ _ k _ cur hprev hcur2 hne2
  · obtain ⟨h2, r2, rfl⟩ :=
      featScan_shape _ _ cur (List.get?_mem hcur2)
    exact mkFeat_key_rate_drop_bounded h2 r2

/-- C4 witness: a one-row table; its single row opens its group and has
zero deltas, zero clipped pct_change and zero rolling variance. -/
theorem c4_group_first_features_witness :
    (GenDataset.mkFeat []
      (⟨⟨0, "L", 0, 0, 0, 0⟩, 0, "normal"⟩ : GenDataset.LRow)).qber_delta
      = 0 ∧
    (GenDataset.mkFeat []
      (⟨⟨0, "L", 0, 0, 0, 0⟩, 0, "normal"⟩ : GenDataset.LRow)).key_rate_drop
      = GenDataset.FVal.fin 0 ∧
    (GenDataset.mkFeat []
      (⟨⟨0, "L", 0, 0, 0, 0⟩, 0, "normal"⟩ : GenDataset.LRow)).qber_var5
      = GenDataset.FVal.fin 0 := by
  have hcur : (GenDataset.engineer_features
      [⟨⟨0, "L", 0, 0, 0, 0⟩, 0, "normal"⟩]).get? 0
      = some (GenDataset.mkFeat []
        (⟨⟨0, "L", 0, 0, 0, 0⟩, 0, "normal"⟩ : GenDataset.LRow)) := rfl
  have h := (c4_group_first_features _ 0 _ hcur).1 (Or.inl rfl)
  exact ⟨h.1, h.2.2.1, h.2.2.2⟩
